import Mathlib

/-!
Shallow embedding of the event-sourced dispense workflow from
`crates/domain/src/dispenses` and the stream-consumer lambdas.

Timestamps (`chrono::DateTime<Utc>`) are modelled as `Nat`; every call of
`Utc::now()` inside `Dispense.handle` becomes an explicit `now : Nat`
argument of the embedded function.  Fallible Rust functions returning
`Result<T, Error>` become `Except Error T`.
-/

set_option maxHeartbeats 1000000

namespace Dispenses

/-- Dispense workflow status (enum `DispenseStatus` in `aggregate.rs`). -/
inductive DispenseStatus where
  | Pending
  | Analyzing
  | Ready
  | Complete
  | Cancelled
  deriving DecidableEq, Repr

/-- One drug line item (struct `DrugItem` in `aggregate.rs`). -/
structure DrugItem where
  drug_id : String
  name : String
  quantity : Nat
  deriving DecidableEq, Repr

/-- Dispense aggregate state (struct `Dispense` in `aggregate.rs`). -/
structure Dispense where
  id : String
  created_at : Nat
  updated_at : Nat
  status : DispenseStatus
  prescription_id : Option String
  prescription_url : Option String
  prescription_analyzed : Bool
  patient_id : Option String
  patient_name : Option String
  drugs : List DrugItem
  deleted : Bool
  deriving DecidableEq, Repr

/-- Rust `Dispense::default()` (derived `Default`, with
`DispenseStatus::default() = Pending`). -/
def defaultDispense : Dispense :=
  { id := ""
    created_at := 0
    updated_at := 0
    status := .Pending
    prescription_id := none
    prescription_url := none
    prescription_analyzed := false
    patient_id := none
    patient_name := none
    drugs := []
    deleted := false }

/-- Commands (enum `Command` in `commands.rs`). -/
inductive Command where
  | StartDispense (id : String)
  | UploadPrescription (prescription_id : String) (url : String)
  | AnalyzePrescription (analysis_data : String)
  | AddPatient (patient_id : String) (name : String)
  | AddDrugs (drugs : List DrugItem)
  | CompleteDispense
  | CancelDispense
  deriving DecidableEq, Repr

/-- Events (enum `Event` in `events.rs`). -/
inductive Event where
  | DispenseStarted (id : String) (created_at : Nat) (status : DispenseStatus)
  | PrescriptionUploaded (id : String) (prescription_id : String) (url : String)
      (updated_at : Nat)
  | PrescriptionAnalyzed (id : String) (analysis_data : String) (updated_at : Nat)
  | PatientAdded (id : String) (patient_id : String) (patient_name : String)
      (updated_at : Nat)
  | DrugsAdded (id : String) (drugs : List DrugItem) (updated_at : Nat)
  | DispenseCompleted (id : String) (updated_at : Nat)
  | DispenseCancelled (id : String) (updated_at : Nat)
  deriving DecidableEq, Repr

/-- Domain errors (enum `Error` in `errors.rs`). -/
inductive Error where
  | NotFound (entity : String)
  | Uniqueness (field : String)
  | Forbidden
  | InvalidStateTransition (src : String) (dst : String)
  | Validation (message : String)
  deriving DecidableEq, Repr

instance {ε α : Type} [DecidableEq ε] [DecidableEq α] : DecidableEq (Except ε α) :=
  fun a b =>
    match a, b with
    | .ok x, .ok y =>
      if h : x = y then .isTrue (by rw [h]) else
        .isFalse (by intro hc; cases hc; exact h rfl)
    | .error x, .error y =>
      if h : x = y then .isTrue (by rw [h]) else
        .isFalse (by intro hc; cases hc; exact h rfl)
    | .ok _, .error _ => .isFalse (by intro hc; cases hc)
    | .error _, .ok _ => .isFalse (by intro hc; cases hc)

/-- String constant `AGGREGATE_TYPE` in `aggregate.rs`. -/
def AGGREGATE_TYPE : String := "Dispense"

/-- Method `Dispense::validate_new` in `aggregate.rs`. -/
def Dispense.validate_new (s : Dispense) : Except Error Unit :=
  if s.id = "" then .ok () else .error (.Uniqueness "id")

/-- Method `Dispense::validate_existing` in `aggregate.rs`. -/
def Dispense.validate_existing (s : Dispense) : Except Error Unit :=
  if s.id = "" then .error (.NotFound AGGREGATE_TYPE)
  else if s.deleted then .error .Forbidden
  else .ok ()

/-- Method `Dispense::validate_can_complete` in `aggregate.rs`. -/
def Dispense.validate_can_complete (s : Dispense) : Except Error Unit :=
  if s.patient_id = none then
    .error (.Validation "Cannot complete dispense without patient")
  else if s.drugs = [] then
    .error (.Validation "Cannot complete dispense without drugs")
  else .ok ()

/-- Method `Dispense::handle` in `aggregate.rs`; `now` stands for the value the Rust
code reads from `Utc::now()` during the invocation. -/
def Dispense.handle (s : Dispense) (c : Command) (now : Nat) :
    Except Error (List Event) :=
  match c with
  | .StartDispense id =>
    match s.validate_new with
    | .error e => .error e
    | .ok _ => .ok [.DispenseStarted id now .Pending]
  | .UploadPrescription prescription_id url =>
    match s.validate_existing with
    | .error e => .error e
    | .ok _ => .ok [.PrescriptionUploaded s.id prescription_id url now]
  | .AnalyzePrescription analysis_data =>
    match s.validate_existing with
    | .error e => .error e
    | .ok _ => .ok [.PrescriptionAnalyzed s.id analysis_data now]
  | .AddPatient patient_id name =>
    match s.validate_existing with
    | .error e => .error e
    | .ok _ => .ok [.PatientAdded s.id patient_id name now]
  | .AddDrugs drugs =>
    match s.validate_existing with
    | .error e => .error e
    | .ok _ => .ok [.DrugsAdded s.id drugs now]
  | .CompleteDispense =>
    match s.validate_existing with
    | .error e => .error e
    | .ok _ =>
      match s.validate_can_complete with
      | .error e => .error e
      | .ok _ => .ok [.DispenseCompleted s.id now]
  | .CancelDispense =>
    match s.validate_existing with
    | .error e => .error e
    | .ok _ => .ok [.DispenseCancelled s.id now]

/-- Method `Dispense::apply` in `aggregate.rs` (state transition per event). -/
def Dispense.apply (s : Dispense) (e : Event) : Dispense :=
  match e with
  | .DispenseStarted id created_at status =>
    { s with id := id, created_at := created_at, updated_at := created_at,
             status := status }
  | .PrescriptionUploaded _ prescription_id url updated_at =>
    { s with prescription_id := some prescription_id,
             prescription_url := some url,
             status := .Analyzing, updated_at := updated_at }
  | .PrescriptionAnalyzed _ _ updated_at =>
    { s with prescription_analyzed := true, status := .Ready,
             updated_at := updated_at }
  | .PatientAdded _ patient_id patient_name updated_at =>
    { s with patient_id := some patient_id,
             patient_name := some patient_name, updated_at := updated_at }
  | .DrugsAdded _ drugs updated_at =>
    { s with drugs := drugs, updated_at := updated_at }
  | .DispenseCompleted _ updated_at =>
    { s with status := .Complete, updated_at := updated_at }
  | .DispenseCancelled _ updated_at =>
    { s with status := .Cancelled, updated_at := updated_at }

/-- Left fold of `Dispense::apply` over an event list (aggregate replay). -/
def applyEvents (s : Dispense) : List Event → Dispense
  | [] => s
  | e :: es => applyEvents (s.apply e) es

/-- Sequential command execution: handle each command against the current
state and apply the produced events, stopping at the first error.  This is
the load-handle-apply cycle the engine performs per command. -/
def execCmds (s : Dispense) (now : Nat) : List Command → Except Error Dispense
  | [] => .ok s
  | c :: cs =>
    match s.handle c now with
    | .error e => .error e
    | .ok evs => execCmds (applyEvents s evs) now cs

/-- Discriminator: the command is a `StartDispense` variant. -/
def Command.isStart : Command → Bool
  | .StartDispense _ => true
  | _ => false

/-- Erasing the timestamp carried by an event (the one field of the result of
`handle` that comes from the `Utc::now()` clock reading). -/
def Event.eraseTime : Event → Event
  | .DispenseStarted id _ status => .DispenseStarted id 0 status
  | .PrescriptionUploaded id p u _ => .PrescriptionUploaded id p u 0
  | .PrescriptionAnalyzed id a _ => .PrescriptionAnalyzed id a 0
  | .PatientAdded id p n _ => .PatientAdded id p n 0
  | .DrugsAdded id d _ => .DrugsAdded id d 0
  | .DispenseCompleted id _ => .DispenseCompleted id 0
  | .DispenseCancelled id _ => .DispenseCancelled id 0

/-- Result of `handle` with the clock-derived timestamps erased from the
produced events (errors are kept verbatim). -/
def handleShape (s : Dispense) (c : Command) (now : Nat) :
    Except Error (List Event) :=
  (s.handle c now).map (List.map Event.eraseTime)

/-- Number of steps along the trajectory of `apply` at which the boolean
observation `f` of the state rises from `false` to `true`. -/
def fieldEdges (f : Dispense → Bool) (s : Dispense) : List Event → Nat
  | [] => 0
  | e :: es =>
    (if f s = false ∧ f (s.apply e) = true then 1 else 0) +
      fieldEdges f (s.apply e) es

/-- Discriminator: the except value is an error. -/
def exceptFails {ε α : Type} : Except ε α → Bool
  | .ok _ => false
  | .error _ => true

/-- Concrete drug item used by the acceptance scenario. -/
def aspirinItem : DrugItem :=
  { drug_id := "a", name := "Aspirin", quantity := 30 }

/-- Concrete state: started aggregate `d1` with a patient and one drug item
set. -/
def completableState : Dispense :=
  { defaultDispense with
    id := "d1"
    patient_id := some "p1"
    drugs := [{ drug_id := "a", name := "Aspirin", quantity := 30 }] }

/-- Concrete state: started aggregate `d1` whose status is Complete. -/
def completedState : Dispense :=
  { defaultDispense with
    id := "d1"
    status := .Complete }

/-- Concrete state: freshly started aggregate `d1`. -/
def startedState : Dispense :=
  { defaultDispense with id := "d1" }

/-- Concrete state: aggregate `d1` with all three prescription fields set. -/
def analyzedState : Dispense :=
  { defaultDispense with
    id := "d1"
    prescription_id := some "rx"
    prescription_url := some "u"
    prescription_analyzed := true }

/-- Event envelope delivered to view updates (`cqrs_es::EventEnvelope<Dispense>`,
as consumed by `View::update` in `view.rs`); the metadata map is modelled as an
association list. -/
structure EventEnvelope where
  aggregate_id : String
  sequence : Nat
  payload : Event
  metadata : List (String × String)
  deriving DecidableEq, Repr

/-- Read-model view (struct `View` in `view.rs`). -/
structure View where
  aggregate_type : String
  command_id : String
  id : String
  dispense : Dispense
  deriving DecidableEq, Repr

/-- Method `View::update` in `view.rs`: copy the envelope identity and causation
metadata into the view and apply the event payload to the embedded state. -/
def View.update (v : View) (e : EventEnvelope) : View :=
  { v with
    id := e.aggregate_id
    aggregate_type := AGGREGATE_TYPE
    command_id := ((e.metadata.lookup "command_id").getD "")
    dispense := v.dispense.apply e.payload }

/-- One S3 record of an upload notification (`record.s3.bucket.name` and
`record.s3.object.key` in `projector-analyzer/src/main.rs`, both optional in
the wire type). -/
structure S3Record where
  bucket : Option String
  key : Option String
  deriving DecidableEq, Repr

/-- Splitting a character list at every `/`, the semantics of the Rust call
`key.split('/')` (an empty input yields one empty part, separators at the
ends yield empty parts). -/
def splitSlash : List Char → List (List Char)
  | [] => [[]]
  | c :: cs =>
    if c = '/' then [] :: splitSlash cs
    else
      match splitSlash cs with
      | [] => [[c]]
      | p :: ps => (c :: p) :: ps

/-- Key dispatch of `handle_s3_event` in `projector-analyzer/src/main.rs` for
one record with bucket and key present: split the key on `/`; when there are
at least two parts and the first is `prescriptions`, issue the
`UploadPrescription` command (with the freshly generated prescription id
`gen_pid` and the derived s3 location) followed by the `AnalyzePrescription`
command (with the analysis payload `analysis_data` produced in step 2), both
against the aggregate named by the second part; otherwise issue nothing. -/
def processS3Key (gen_pid analysis_data bucket key : String) :
    List (String × Command) :=
  let parts := splitSlash key.toList
  if parts.length ≥ 2 ∧ parts.headI = "prescriptions".toList then
    let dispense_id := String.mk (parts.getD 1 [])
    [(dispense_id,
      .UploadPrescription gen_pid ("s3://" ++ bucket ++ "/" ++ key)),
     (dispense_id, .AnalyzePrescription analysis_data)]
  else []

/-- Modelled from the spec: the object key convention
`prescriptions/<dispenseId>/<file-name>` of the upload notification
trigger — the key splits on `/` into `prescriptions`, a dispense id
segment, and at least one further segment. -/
def specKeyMatch (key : String) : Bool :=
  let parts := splitSlash key.toList
  decide (parts.length ≥ 3) && decide (parts.headI = "prescriptions".toList)

/-- Per-record body of `handle_s3_event`: a missing bucket name or object key
is an error (the `ok_or` calls); otherwise the record is dispatched on its
key and never fails, a non-matching key merely logging a warning and issuing
no commands. -/
def handleS3Record (gen_pid analysis_data : String) (r : S3Record) :
    Except String (List (String × Command)) :=
  match r.bucket with
  | none => .error "Missing bucket name"
  | some bucket =>
    match r.key with
    | none => .error "Missing object key"
    | some key => .ok (processS3Key gen_pid analysis_data bucket key)

/-- One Kinesis stream record (`KinesisEventRecord` as used in
`projector-views/src/main.rs`): its stream-assigned sequence number and its
data bytes. -/
structure KinesisRecord where
  sequence_number : String
  data : List Nat
  deriving DecidableEq, Repr

/-- Failure report entry for one Kinesis batch item
(`KinesisBatchItemFailure`). -/
structure KinesisBatchItemFailure where
  item_identifier : String
  deriving DecidableEq, Repr

/-- Kinesis batch response (`KinesisEventResponse`). -/
structure KinesisEventResponse where
  batch_item_failures : List KinesisBatchItemFailure
  deriving DecidableEq, Repr

/-- Function `handle` in `projector-views/src/main.rs`: walk the batch in order,
process each record, and collect the sequence number of every record whose
processing fails.  The per-record body `handle_record` (UTF-8 decoding plus
JSON deserialization of the DomainEvent, both external library calls) is
abstracted as the parameter `proc`. -/
def viewsHandle (proc : List Nat → Except String Unit)
    (records : List KinesisRecord) : KinesisEventResponse :=
  { batch_item_failures :=
      records.foldl
        (fun acc r =>
          match proc r.data with
          | .ok _ => acc
          | .error _ => acc ++ [{ item_identifier := r.sequence_number }])
        [] }

/-- One DynamoDB stream record (`EventRecord` as used in
`publisher/src/main.rs`): its stream event name (`INSERT`, `MODIFY`, ...),
its stream-assigned event id, and the new image bytes. -/
structure DynamoRecord where
  event_name : String
  event_id : String
  new_image : List Nat
  deriving DecidableEq, Repr

/-- Failure report entry for one DynamoDB stream batch item
(`DynamoDbBatchItemFailure`). -/
structure DynamoDbBatchItemFailure where
  item_identifier : Option String
  deriving DecidableEq, Repr

/-- DynamoDB stream batch response (`DynamoDbEventResponse`). -/
structure DynamoDbEventResponse where
  batch_item_failures : List DynamoDbBatchItemFailure
  deriving DecidableEq, Repr

/-- Function `handle` in `publisher/src/main.rs`: walk the batch in order, process
each `INSERT` record (others are skipped), and collect the event id of every
processed record that fails.  The per-record body `handle_record`
(deserializing the new image into an EventLogRecord, converting it to a
DomainEvent, and publishing to the stream — external library and network
calls) is abstracted as the parameter `proc`. -/
def publisherHandle (proc : DynamoRecord → Except String Unit)
    (records : List DynamoRecord) : DynamoDbEventResponse :=
  { batch_item_failures :=
      records.foldl
        (fun acc r =>
          if r.event_name = "INSERT" then
            match proc r with
            | .ok _ => acc
            | .error _ => acc ++ [{ item_identifier := some r.event_id }]
          else acc)
        [] }

theorem apply_idem (d : Dispense) (e : Event) : (d.apply e).apply e = d.apply e := by
  cases e <;> rfl

/-- C7: applying the same event envelope to a view twice yields the same view
as applying it once. -/
theorem view_update_idempotent (v : View) (e : EventEnvelope) :
    (v.update e).update e = v.update e := by
  simp [View.update, apply_idem]

/-- C9: from the zero-value state, StartDispense, AddDrugs of one Aspirin
item, AddPatient and CompleteDispense are each accepted with the expected
singleton event list, and the final state has status Complete and exactly the
one drug item. -/
theorem scenario_start_drugs_patient_complete :
    defaultDispense.handle (.StartDispense "d1") 1 =
      .ok [.DispenseStarted "d1" 1 .Pending] ∧
    (applyEvents defaultDispense
        [.DispenseStarted "d1" 1 .Pending]).handle (.AddDrugs [aspirinItem]) 2 =
      .ok [.DrugsAdded "d1" [aspirinItem] 2] ∧
    (applyEvents defaultDispense
        [.DispenseStarted "d1" 1 .Pending,
         .DrugsAdded "d1" [aspirinItem] 2]).handle (.AddPatient "p1" "Jane") 3 =
      .ok [.PatientAdded "d1" "p1" "Jane" 3] ∧
    (applyEvents defaultDispense
        [.DispenseStarted "d1" 1 .Pending,
         .DrugsAdded "d1" [aspirinItem] 2,
         .PatientAdded "d1" "p1" "Jane" 3]).handle .CompleteDispense 4 =
      .ok [.DispenseCompleted "d1" 4] ∧
    (applyEvents defaultDispense
        [.DispenseStarted "d1" 1 .Pending,
         .DrugsAdded "d1" [aspirinItem] 2,
         .PatientAdded "d1" "p1" "Jane" 3,
         .DispenseCompleted "d1" 4]).status = .Complete ∧
    (applyEvents defaultDispense
        [.DispenseStarted "d1" 1 .Pending,
         .DrugsAdded "d1" [aspirinItem] 2,
         .PatientAdded "d1" "p1" "Jane" 3,
         .DispenseCompleted "d1" 4]).drugs = [aspirinItem] := by
  decide

/-- C10: whenever handle succeeds it returns a list of exactly one event. -/
theorem handle_emits_exactly_one_event (s : Dispense) (c : Command) (now : Nat)
    (evs : List Event) (h : s.handle c now = .ok evs) : evs.length = 1 := by
  cases c <;> simp only [Dispense.handle] at h <;> (repeat' split at h) <;>
    first
    | (cases h; rfl)
    | simp_all

/-- Closed instance of the exactly-one-event theorem at a concrete state and
command. -/
theorem handle_emits_exactly_one_event_witness :
    ([Event.DispenseStarted "d1" 0 .Pending] : List Event).length = 1 :=
  handle_emits_exactly_one_event defaultDispense (.StartDispense "d1") 0
    [Event.DispenseStarted "d1" 0 .Pending] (by decide)

/-- C3: on a state with non-empty id, StartDispense fails with the Uniqueness
error on the id field; on a state with empty id, every command other than
StartDispense fails with the NotFound error for the Dispense entity. -/
theorem start_uniqueness_and_notfound (s : Dispense) (c : Command) (i : String)
    (now : Nat) :
    (s.id ≠ "" → s.handle (.StartDispense i) now = .error (.Uniqueness "id")) ∧
    (s.id = "" → c.isStart = false →
      s.handle c now = .error (.NotFound "Dispense")) := by
  constructor
  · intro h
    simp [Dispense.handle, Dispense.validate_new, h]
  · intro h1 h2
    cases c <;>
      simp_all [Command.isStart, Dispense.handle, Dispense.validate_existing,
        AGGREGATE_TYPE]

/-- Closed instance of the uniqueness/notfound theorem at concrete states. -/
theorem start_uniqueness_and_notfound_witness :
    (({ defaultDispense with id := "d1" } : Dispense).handle
        (.StartDispense "x") 0 = .error (.Uniqueness "id")) ∧
    (defaultDispense.handle .CancelDispense 0 =
      .error (.NotFound "Dispense")) :=
  ⟨(start_uniqueness_and_notfound { defaultDispense with id := "d1" }
      .CancelDispense "x" 0).1 (by decide),
   (start_uniqueness_and_notfound defaultDispense .CancelDispense "x" 0).2
      rfl (by decide)⟩

/-- C4: on an existing, non-deleted state, CompleteDispense fails with a
Validation error exactly when the patient is unset or the drug list is empty;
with both set it succeeds with the single Completed event, and it does so
after a PatientAdded and a DrugsAdded event in either order. -/
theorem complete_validation_characterization (s : Dispense) (now : Nat)
    (h1 : s.id ≠ "") (h2 : s.deleted = false) :
    ((∃ m, s.handle .CompleteDispense now = .error (.Validation m)) ↔
      (s.patient_id = none ∨ s.drugs = [])) ∧
    (s.patient_id ≠ none → s.drugs ≠ [] →
      s.handle .CompleteDispense now = .ok [.DispenseCompleted s.id now]) ∧
    (∀ (pid pname : String) (ds : List DrugItem) (t1 t2 : Nat), ds ≠ [] →
      (applyEvents s
          [.PatientAdded s.id pid pname t1, .DrugsAdded s.id ds t2]).handle
          .CompleteDispense now = .ok [.DispenseCompleted s.id now] ∧
      (applyEvents s
          [.DrugsAdded s.id ds t2, .PatientAdded s.id pid pname t1]).handle
          .CompleteDispense now = .ok [.DispenseCompleted s.id now]) := by
  refine ⟨?_, ?_, ?_⟩
  · by_cases hp : s.patient_id = none <;> by_cases hd : s.drugs = [] <;>
      simp [Dispense.handle, Dispense.validate_existing,
        Dispense.validate_can_complete, h1, h2, hp, hd]
  · intro hp hd
    simp [Dispense.handle, Dispense.validate_existing,
      Dispense.validate_can_complete, h1, h2, hp, hd]
  · intro pid pname ds t1 t2 hds
    constructor <;>
      simp [applyEvents, Dispense.apply, Dispense.handle,
        Dispense.validate_existing, Dispense.validate_can_complete, h1, h2, hds]

/-- Closed instance of the CompleteDispense characterization at a concrete
state with a patient and one drug set. -/
theorem complete_validation_characterization_witness :
    completableState.handle .CompleteDispense 0 =
      .ok [.DispenseCompleted "d1" 0] :=
  (complete_validation_characterization completableState 0 (by decide)
      rfl).2.1 (by decide) (by decide)

/-- C1 as stated is false: two invocations of handle at different clock
readings return different event lists (the produced events carry the clock
value read during the invocation). -/
theorem handle_not_clock_independent :
    defaultDispense.handle (.StartDispense "d1") 0 ≠
      defaultDispense.handle (.StartDispense "d1") 1 := by
  decide

/-- C1 amended: handle is deterministic given the clock reading; its
success or failure, the returned error, and every part of the produced
events except the clock-derived timestamp are independent of the clock. -/
theorem handle_deterministic_up_to_timestamps (s : Dispense) (c : Command)
    (n1 n2 : Nat) : handleShape s c n1 = handleShape s c n2 := by
  cases c <;> simp only [handleShape, Dispense.handle] <;>
    (repeat' split) <;> simp_all [Event.eraseTime, Except.map]

/-- C2 as stated is false: a non-deleted aggregate with status Complete
accepts CancelDispense, and applying the produced event moves status to
Cancelled. -/
theorem terminal_status_counterexample :
    ¬ (∀ (s : Dispense) (c : Command) (now : Nat) (evs : List Event),
        (s.status = .Complete ∨ s.status = .Cancelled) → s.deleted = false →
        s.handle c now = .ok evs → (applyEvents s evs).status = s.status) := by
  intro h
  have hc := h completedState .CancelDispense 0 [.DispenseCancelled "d1" 0]
      (Or.inl rfl) rfl (by decide)
  exact absurd hc (by decide)

/-- C2 amended: handle never inspects status, so every existing non-deleted
state — whatever its status, including Complete and Cancelled — accepts
CancelDispense (moving status to Cancelled) and UploadPrescription (moving
status to Analyzing); status is not forward-only and Complete and Cancelled
are not terminal. -/
theorem terminal_status_not_enforced (s : Dispense) (now : Nat)
    (pid url : String) (h1 : s.id ≠ "") (h2 : s.deleted = false) :
    s.handle .CancelDispense now = .ok [.DispenseCancelled s.id now] ∧
    (s.apply (.DispenseCancelled s.id now)).status = .Cancelled ∧
    s.handle (.UploadPrescription pid url) now =
      .ok [.PrescriptionUploaded s.id pid url now] ∧
    (s.apply (.PrescriptionUploaded s.id pid url now)).status = .Analyzing := by
  refine ⟨?_, ?_, ?_, ?_⟩ <;>
    simp [Dispense.handle, Dispense.validate_existing, Dispense.apply, h1, h2]

/-- Closed instance of the non-terminality theorem at a concrete Complete
state. -/
theorem terminal_status_not_enforced_witness :
    completedState.handle .CancelDispense 0 =
      .ok [.DispenseCancelled "d1" 0] ∧
    (completedState.apply (.DispenseCancelled "d1" 0)).status = .Cancelled ∧
    completedState.handle (.UploadPrescription "p" "u") 0 =
      .ok [.PrescriptionUploaded "d1" "p" "u" 0] ∧
    (completedState.apply
        (.PrescriptionUploaded "d1" "p" "u" 0)).status = .Analyzing :=
  terminal_status_not_enforced completedState 0 "p" "u" (by decide) rfl

theorem applyEvents_mono (f : Dispense → Bool)
    (hf : ∀ (t : Dispense) (e : Event), f t = true → f (t.apply e) = true)
    (es : List Event) : ∀ (s : Dispense), f s = true →
    f (applyEvents s es) = true := by
  induction es with
  | nil => intro s hs; exact hs
  | cons e es ih => intro s hs; exact ih (s.apply e) (hf s e hs)

theorem fieldEdges_zero_of_true (f : Dispense → Bool)
    (hf : ∀ (t : Dispense) (e : Event), f t = true → f (t.apply e) = true)
    (es : List Event) : ∀ (s : Dispense), f s = true →
    fieldEdges f s es = 0 := by
  induction es with
  | nil => intro s _; rfl
  | cons e es ih =>
    intro s hs
    simp only [fieldEdges, hs]
    simp [ih (s.apply e) (hf s e hs)]

theorem fieldEdges_le_one (f : Dispense → Bool)
    (hf : ∀ (t : Dispense) (e : Event), f t = true → f (t.apply e) = true)
    (es : List Event) : ∀ (s : Dispense), fieldEdges f s es ≤ 1 := by
  induction es with
  | nil => intro s; simp [fieldEdges]
  | cons e es ih =>
    intro s
    by_cases hs : f s = true
    · simp [fieldEdges_zero_of_true f hf (e :: es) s hs]
    · simp only [fieldEdges]
      by_cases ha : f (s.apply e) = true
      · have h0 := fieldEdges_zero_of_true f hf es (s.apply e) ha
        simp only [h0, Nat.add_zero]
        split <;> simp
      · have hcond : ¬(f s = false ∧ f (s.apply e) = true) := fun hc => ha hc.2
        simp only [hcond, if_false]
        simpa using ih (s.apply e)

theorem presId_mono (t : Dispense) (e : Event)
    (h : (t.prescription_id).isSome = true) :
    ((t.apply e).prescription_id).isSome = true := by
  cases e <;> simp_all [Dispense.apply]

theorem presUrl_mono (t : Dispense) (e : Event)
    (h : (t.prescription_url).isSome = true) :
    ((t.apply e).prescription_url).isSome = true := by
  cases e <;> simp_all [Dispense.apply]

theorem analyzed_mono (t : Dispense) (e : Event)
    (h : t.prescription_analyzed = true) :
    (t.apply e).prescription_analyzed = true := by
  cases e <;> simp_all [Dispense.apply]

/-- C5: along any event trajectory, each of prescription id, prescription url
and the analyzed flag rises from unset to set at most once, and once set it
is never cleared by any later event application. -/
theorem prescription_fields_set_once (s : Dispense) (es : List Event) :
    fieldEdges (fun t => (t.prescription_id).isSome) s es ≤ 1 ∧
    fieldEdges (fun t => (t.prescription_url).isSome) s es ≤ 1 ∧
    fieldEdges (fun t => t.prescription_analyzed) s es ≤ 1 ∧
    ((s.prescription_id).isSome = true →
      ((applyEvents s es).prescription_id).isSome = true) ∧
    ((s.prescription_url).isSome = true →
      ((applyEvents s es).prescription_url).isSome = true) ∧
    (s.prescription_analyzed = true →
      (applyEvents s es).prescription_analyzed = true) :=
  ⟨fieldEdges_le_one _ presId_mono es s,
   fieldEdges_le_one _ presUrl_mono es s,
   fieldEdges_le_one _ analyzed_mono es s,
   applyEvents_mono _ presId_mono es s,
   applyEvents_mono _ presUrl_mono es s,
   applyEvents_mono _ analyzed_mono es s⟩

/-- Closed instance of the write-once theorem at a concrete state with all
three prescription fields set. -/
theorem prescription_fields_set_once_witness :
    fieldEdges (fun t => (t.prescription_id).isSome) analyzedState
      [.DispenseCancelled "d1" 9] ≤ 1 ∧
    fieldEdges (fun t => (t.prescription_url).isSome) analyzedState
      [.DispenseCancelled "d1" 9] ≤ 1 ∧
    fieldEdges (fun t => t.prescription_analyzed) analyzedState
      [.DispenseCancelled "d1" 9] ≤ 1 ∧
    ((applyEvents analyzedState
        [.DispenseCancelled "d1" 9]).prescription_id).isSome = true ∧
    ((applyEvents analyzedState
        [.DispenseCancelled "d1" 9]).prescription_url).isSome = true ∧
    (applyEvents analyzedState
        [.DispenseCancelled "d1" 9]).prescription_analyzed = true := by
  have h := prescription_fields_set_once analyzedState [.DispenseCancelled "d1" 9]
  exact ⟨h.1, h.2.1, h.2.2.1, h.2.2.2.1 rfl, h.2.2.2.2.1 rfl, h.2.2.2.2.2 rfl⟩

/-- C6 as stated is false: the key `prescriptions/d1`, which does not match
the spec convention `prescriptions/<segment>/<name>` (it has no third
segment), is nevertheless not ignored — the code only requires the first
segment to be `prescriptions` and a second segment to exist, so it issues
the two commands for aggregate `d1`. -/
theorem s3_key_convention_counterexample :
    ¬ (∀ (gen_pid analysis_data bucket key : String),
        specKeyMatch key = false →
        processS3Key gen_pid analysis_data bucket key = []) := by
  intro h
  exact absurd (h "p" "a" "b" "prescriptions/d1" (by decide)) (by decide)

/-- C6 amended: a record whose key splits on `/` into at least two segments
with first segment `prescriptions` yields exactly the two sequential
commands — UploadPrescription with the freshly generated prescription id and
the derived s3 location, then AnalyzePrescription — against the aggregate
named by the second segment (even when no third segment exists); every other
key yields no commands and no error; and executing those two commands on an
existing non-deleted aggregate leaves status Ready. -/
theorem s3_key_dispatch_characterization
    (gen_pid analysis_data bucket key : String) (s : Dispense) (now : Nat) :
    (((splitSlash key.toList).length ≥ 2 ∧
        (splitSlash key.toList).headI = "prescriptions".toList) →
      handleS3Record gen_pid analysis_data
          { bucket := some bucket, key := some key } =
        .ok [(String.mk ((splitSlash key.toList).getD 1 []),
              .UploadPrescription gen_pid ("s3://" ++ bucket ++ "/" ++ key)),
             (String.mk ((splitSlash key.toList).getD 1 []),
              .AnalyzePrescription analysis_data)]) ∧
    (¬((splitSlash key.toList).length ≥ 2 ∧
        (splitSlash key.toList).headI = "prescriptions".toList) →
      handleS3Record gen_pid analysis_data
          { bucket := some bucket, key := some key } = .ok []) ∧
    (s.id ≠ "" → s.deleted = false →
      (execCmds s now
          [.UploadPrescription gen_pid ("s3://" ++ bucket ++ "/" ++ key),
           .AnalyzePrescription analysis_data]).map Dispense.status =
        .ok .Ready) := by
  refine ⟨?_, ?_, ?_⟩
  · intro h
    simp only [handleS3Record, processS3Key]
    rw [if_pos h]
  · intro h
    simp only [handleS3Record, processS3Key]
    rw [if_neg h]
  · intro h1 h2
    simp [execCmds, Dispense.handle, Dispense.validate_existing, h1, h2,
      applyEvents, Dispense.apply, Except.map]

/-- Closed instance of the key-dispatch theorem: a conforming key produces
the two commands, an unrelated key produces none, and the produced command
pair drives a started aggregate to status Ready. -/
theorem s3_key_dispatch_characterization_witness :
    handleS3Record "rx" "data"
        { bucket := some "b", key := some "prescriptions/d1/scan.png" } =
      .ok [("d1", .UploadPrescription "rx" "s3://b/prescriptions/d1/scan.png"),
           ("d1", .AnalyzePrescription "data")] ∧
    handleS3Record "rx" "data"
        { bucket := some "b", key := some "unrelated/file.png" } = .ok [] ∧
    (execCmds startedState 7
        [.UploadPrescription "rx" "s3://b/prescriptions/d1/scan.png",
         .AnalyzePrescription "data"]).map Dispense.status = .ok .Ready := by
  have h1 := s3_key_dispatch_characterization "rx" "data" "b"
    "prescriptions/d1/scan.png" startedState 7
  have h2 := s3_key_dispatch_characterization "rx" "data" "b"
    "unrelated/file.png" startedState 7
  exact ⟨h1.1 (by decide), h2.2.1 (by decide), h1.2.2 (by decide) rfl⟩

theorem viewsHandle_foldl (proc : List Nat → Except String Unit)
    (records : List KinesisRecord) :
    ∀ (acc : List KinesisBatchItemFailure),
      records.foldl
        (fun acc r =>
          match proc r.data with
          | .ok _ => acc
          | .error _ => acc ++ [{ item_identifier := r.sequence_number }]) acc
      = acc ++ (records.filter (fun r => exceptFails (proc r.data))).map
          (fun r => { item_identifier := r.sequence_number }) := by
  induction records with
  | nil => intro acc; simp
  | cons r rs ih =>
    intro acc
    simp only [List.foldl_cons, List.filter_cons]
    cases h : proc r.data with
    | ok _ => simp [h, exceptFails, ih]
    | error _ => simp [h, exceptFails, ih]

theorem publisherHandle_foldl (proc : DynamoRecord → Except String Unit)
    (records : List DynamoRecord) :
    ∀ (acc : List DynamoDbBatchItemFailure),
      records.foldl
        (fun acc r =>
          if r.event_name = "INSERT" then
            match proc r with
            | .ok _ => acc
            | .error _ => acc ++ [{ item_identifier := some r.event_id }]
          else acc) acc
      = acc ++ (records.filter
          (fun r => decide (r.event_name = "INSERT") && exceptFails (proc r))).map
          (fun r => { item_identifier := some r.event_id }) := by
  induction records with
  | nil => intro acc; simp
  | cons r rs ih =>
    intro acc
    simp only [List.foldl_cons, List.filter_cons]
    by_cases hn : r.event_name = "INSERT"
    · cases h : proc r with
      | ok _ => simp [hn, h, exceptFails, ih]
      | error _ => simp [hn, h, exceptFails, ih]
    · simp [hn, ih]

/-- C8: both batch handlers isolate per-record failures — the returned
failure list is exactly the stream item identifiers of the records whose
per-record processing fails (for the publisher, of the INSERT records whose
processing fails), in batch order; sibling records are processed and never
reported. -/
theorem batch_failure_isolation (proc1 : List Nat → Except String Unit)
    (records1 : List KinesisRecord)
    (proc2 : DynamoRecord → Except String Unit)
    (records2 : List DynamoRecord) :
    (viewsHandle proc1 records1).batch_item_failures =
      (records1.filter (fun r => exceptFails (proc1 r.data))).map
        (fun r => { item_identifier := r.sequence_number }) ∧
    (publisherHandle proc2 records2).batch_item_failures =
      (records2.filter
          (fun r => decide (r.event_name = "INSERT") && exceptFails (proc2 r))).map
        (fun r => { item_identifier := some r.event_id }) :=
  ⟨by simpa [viewsHandle] using viewsHandle_foldl proc1 records1 [],
   by simpa [publisherHandle] using publisherHandle_foldl proc2 records2 []⟩

end Dispenses
